import Mathlib

/-!
Verification of the fiat-ramp webhook ingestion and status-reconciliation
pipeline: a shallow embedding, in Lean, of the Go source of the
`Payment_Aggregator` repository (packages `onramper`, `database`, `utils`,
`models`), together with proofs and refutations of the specified properties.

Bytes are modelled as `Nat` values below 256 (`List Nat` for byte slices),
32-bit words as `Nat` reduced modulo `2 ^ 32`. Go strings are modelled as
Lean `String`; Go `[]byte(s)` is the UTF-8 encoding `utf8Bytes s`.
Database interaction is modelled by explicit store values and by oracle
parameters standing for the GraphQL client's methods, so that each handler
records exactly the store operations the Go code performs.
-/

/-- Bytes are naturals; this reduces a word to 32 bits, as Go's `uint32`
arithmetic does implicitly. -/
def w32 (n : Nat) : Nat := n % 4294967296

/-- Right rotation of a 32-bit word by `k` bits. -/
def rotr32 (k n : Nat) : Nat := w32 ((n >>> k) ||| (n <<< (32 - k)))

/-- The SHA-256 round constants (FIPS 180-4, §4.2.2). -/
def sha256K : List Nat :=
  [1116352408, 1899447441, 3049323471, 3921009573, 961987163, 1508970993,
   2453635748, 2870763221, 3624381080, 310598401, 607225278, 1426881987,
   1925078388, 2162078206, 2614888103, 3248222580, 3835390401, 4022224774,
   264347078, 604807628, 770255983, 1249150122, 1555081692, 1996064986,
   2554220882, 2821834349, 2952996808, 3210313671, 3336571891, 3584528711,
   113926993, 338241895, 666307205, 773529912, 1294757372, 1396182291,
   1695183700, 1986661051, 2177026350, 2456956037, 2730485921, 2820302411,
   3259730800, 3345764771, 3516065817, 3600352804, 4094571909, 275423344,
   430227734, 506948616, 659060556, 883997877, 958139571, 1322822218,
   1537002063, 1747873779, 1955562222, 2024104815, 2227730452, 2361852424,
   2428436474, 2756734187, 3204031479, 3329325298]

/-- The SHA-256 initial hash value (FIPS 180-4, §5.3.3). -/
def sha256H0 : List Nat :=
  [1779033703, 3144134277, 1013904242, 2773480762,
   1359893119, 2600822924, 528734635, 1541459225]

/-- Big-endian assembly of consecutive 4-byte groups into 32-bit words. -/
def bytesToWords : List Nat → List Nat
  | b0 :: b1 :: b2 :: b3 :: rest =>
      (((b0 * 256 + b1) * 256 + b2) * 256 + b3) :: bytesToWords rest
  | _ => []

/-- Big-endian decomposition of a number into `k` bytes. -/
def natToBytesBE : Nat → Nat → List Nat
  | 0, _ => []
  | k + 1, n => natToBytesBE k (n / 256) ++ [n % 256]

/-- One extension step of the SHA-256 message schedule, on the reversed
schedule (most recent word first). -/
def scheduleStep (rw : List Nat) : List Nat :=
  let s1 := fun x => (rotr32 17 x) ^^^ (rotr32 19 x) ^^^ (x >>> 10)
  let s0 := fun x => (rotr32 7 x) ^^^ (rotr32 18 x) ^^^ (x >>> 3)
  w32 (s1 (rw.getD 1 0) + rw.getD 6 0 + s0 (rw.getD 14 0) + rw.getD 15 0) :: rw

/-- Iterated schedule extension. -/
def scheduleExtend : Nat → List Nat → List Nat
  | 0, rw => rw
  | n + 1, rw => scheduleExtend n (scheduleStep rw)

/-- The full 64-word message schedule of one 64-byte block. -/
def sha256Schedule (block : List Nat) : List Nat :=
  (scheduleExtend 48 (bytesToWords block).reverse).reverse

/-- One SHA-256 compression round on the state `[a, b, c, d, e, f, g, h]`. -/
def sha256Round (st : List Nat) (k w : Nat) : List Nat :=
  match st with
  | [a, b, c, d, e, f, g, h] =>
      let ch := (e &&& f) ^^^ ((2 ^ 32 - 1 - e) &&& g)
      let maj := (a &&& b) ^^^ (a &&& c) ^^^ (b &&& c)
      let bigS1 := (rotr32 6 e) ^^^ (rotr32 11 e) ^^^ (rotr32 25 e)
      let bigS0 := (rotr32 2 a) ^^^ (rotr32 13 a) ^^^ (rotr32 22 a)
      let t1 := w32 (h + bigS1 + ch + k + w)
      let t2 := w32 (bigS0 + maj)
      [w32 (t1 + t2), a, b, c, w32 (d + t1), e, f, g]
  | other => other

/-- Compression of one 64-byte block into the running hash state. -/
def sha256Compress (h : List Nat) (block : List Nat) : List Nat :=
  let ws := sha256Schedule block
  let st := (List.zip sha256K ws).foldl (fun st kw => sha256Round st kw.1 kw.2) h
  List.zipWith (fun x y => w32 (x + y)) h st

/-- SHA-256 padding: a `0x80` byte, zeros to 56 mod 64, and the bit length
as 8 big-endian bytes. -/
def sha256Pad (msg : List Nat) : List Nat :=
  let l := msg.length
  msg ++ 0x80 :: List.replicate ((119 - l % 64) % 64) 0 ++ natToBytesBE 8 (8 * l)

/-- Split a byte list into 64-byte chunks. -/
def chunks64 (l : List Nat) : List (List Nat) :=
  match l with
  | [] => []
  | x :: xs => (x :: xs).take 64 :: chunks64 (xs.drop 63)
termination_by l.length
decreasing_by simp [List.length_drop]; omega

/-- The SHA-256 digest (32 bytes) of a byte sequence. -/
def sha256 (msg : List Nat) : List Nat :=
  (((chunks64 (sha256Pad msg)).foldl sha256Compress sha256H0).map (natToBytesBE 4)).flatten

/-- HMAC-SHA256 (RFC 2104) of a message under a key, as Go's
`crypto/hmac` with `crypto/sha256` computes it. -/
def hmacSha256 (key msg : List Nat) : List Nat :=
  let k0 := if key.length > 64 then sha256 key else key
  let kpad := k0 ++ List.replicate (64 - k0.length) 0
  let ipad := kpad.map (fun b => b ^^^ 0x36)
  let opad := kpad.map (fun b => b ^^^ 0x5c)
  sha256 (opad ++ sha256 (ipad ++ msg))

/-- Lowercase hex digit, as Go's `encoding/hex` emits. -/
def hexDigit (n : Nat) : Char := if n < 10 then Char.ofNat (48 + n) else Char.ofNat (87 + n)

/-- Lowercase hex encoding of a byte sequence, modelling
`hex.EncodeToString`. -/
def hexEncode (bs : List Nat) : String :=
  ⟨(bs.map (fun b => [hexDigit (b / 16 % 16), hexDigit (b % 16)])).flatten⟩

/-- UTF-8 encoding of one character. -/
def utf8Char (c : Char) : List Nat :=
  let n := c.toNat
  if n < 0x80 then [n]
  else if n < 0x800 then [0xC0 ||| (n >>> 6), 0x80 ||| (n &&& 0x3F)]
  else if n < 0x10000 then
    [0xE0 ||| (n >>> 12), 0x80 ||| ((n >>> 6) &&& 0x3F), 0x80 ||| (n &&& 0x3F)]
  else
    [0xF0 ||| (n >>> 18), 0x80 ||| ((n >>> 12) &&& 0x3F),
     0x80 ||| ((n >>> 6) &&& 0x3F), 0x80 ||| (n &&& 0x3F)]

/-- UTF-8 encoding of a string: Go's `[]byte(s)`. -/
def utf8Bytes (s : String) : List Nat := (s.data.map utf8Char).flatten

/-- Hex HMAC-SHA256 digest of a payload under a string secret — the
expected signature computed inside `OnramperManager.ValidateSignature`
(`mac := hmac.New(sha256.New, []byte(secret)); mac.Write(payload);
expectedMAC := hex.EncodeToString(mac.Sum(nil))`). -/
def hexHmacSha256 (secret : String) (payload : List Nat) : String :=
  hexEncode (hmacSha256 (utf8Bytes secret) payload)

/-- Model of `OnramperManager.ValidateSignature` (webhook.go): reject an
empty secret outright, otherwise compare the received signature with the
hex HMAC-SHA256 digest of the payload under the secret (`hmac.Equal` on
the byte images of the two strings, which is exactly string equality). -/
def ValidateSignature (receivedSignature : String) (payload : List Nat) (secret : String) : Bool :=
  if secret = "" then false
  else receivedSignature == hexHmacSha256 secret payload

/-- Model of `models.WebhookPayload` (`pkg/models`): the parsed webhook
body. `float64` amounts are modelled as `Float`; the `time.Time` status
date as an abstract timestamp. -/
structure WebhookPayload where
  country : String
  inAmount : Float
  onramp : String
  onrampTransactionID : String
  outAmount : Float
  paymentMethod : String
  partnerContext : String
  sourceCurrency : String
  status : String
  statusDate : Nat
  targetCurrency : String
  transactionID : String
  transactionType : String
  transactionHash : String
  walletAddress : String

/-- ASCII lowercase conversion of one character: the fragment of Go's
`unicode.ToLower` the status vocabulary exercises. -/
def charLower (c : Char) : Char :=
  if 65 ≤ c.toNat ∧ c.toNat ≤ 90 then Char.ofNat (c.toNat + 32) else c

/-- Model of `strings.ToLower`, restricted to ASCII case folding. -/
def goToLower (s : String) : String := ⟨s.data.map charLower⟩

/-- ASCII whitespace, the fragment of `unicode.IsSpace` relevant here. -/
def goIsSpace (c : Char) : Bool := c.toNat = 32 ∨ (9 ≤ c.toNat ∧ c.toNat ≤ 13)

/-- Model of `strings.TrimSpace`, restricted to ASCII whitespace. -/
def goTrimSpace (s : String) : String :=
  ⟨((s.data.dropWhile goIsSpace).reverse.dropWhile goIsSpace).reverse⟩

/-- Substring scan: does `pat` occur as a contiguous run of `l`? -/
def containsSub (pat : List Char) : List Char → Bool
  | [] => pat.isEmpty
  | c :: rest => pat.isPrefixOf (c :: rest) || containsSub pat rest

/-- Model of `strings.Contains`: substring containment. A pure-ASCII
pattern matches at byte level exactly when it matches at character level,
so character-list containment is faithful for the status patterns. -/
def goContains (s pat : String) : Bool := containsSub pat.data s.data

/-- Model of `utils.MapTransactionStatus` (`pkg/utils`): lowercase the
input, then fall through a containment switch; the default branch returns
`"new"`. Total by construction — there is no error output. -/
def MapTransactionStatus (input : String) : String :=
  let l := goToLower input
  if goContains l "pending" || goContains l "in_progress" || goContains l "processing" then
    "pending"
  else if goContains l "completed" || goContains l "confirmed" then "completed"
  else if l = "paid" then "paid"
  else if goContains l "failed" || goContains l "error" then "failed"
  else "new"

/-- The status-to-KYC-state switch of `OnramperManager.HandleKYCWebhook`
(webhook.go, the `switch strings.ToLower(rawStatus)` block): `completed ↦
APPROVED`, `failed`/`canceled ↦ REJECTED`, `pending ↦ PENDING`, anything
else an `invalid status` error. -/
def mapKYCStatus (rawStatus : String) : Except String String :=
  if goToLower rawStatus = "completed" then .ok "APPROVED"
  else if goToLower rawStatus = "failed" ∨ goToLower rawStatus = "canceled" then .ok "REJECTED"
  else if goToLower rawStatus = "pending" then .ok "PENDING"
  else .error ("invalid status: " ++ rawStatus)

/-- Result of one run of the webhook endpoint: the `c.JSON` writes in
order (gin keeps the status of the first write when a later write
follows), whether `json.Unmarshal` ran on the body, and the ledger and
verification store operations the handler invoked. -/
structure HandlerResult where
  writes : List (Nat × String)
  parsed : Bool
  upsertCalls : List WebhookPayload
  kycCalls : List (String × String)

/-- Model of `OnramperManager.WebhookHandler` (webhook.go) after the body
has been read: validate the HMAC signature (early 401 on failure),
unmarshal the body through the decoder `parse` (on failure write a 500
`Database error` response and fall through — the Go code has no `return`
in that branch), and write the 200 response. The Go handler invokes no
database method: `upsertCalls` and `kycCalls` record what it would have
recorded, and stay empty on every path. -/
def WebhookHandler (sig : String) (body : List Nat) (secret : String)
    (parse : List Nat → Option WebhookPayload) : HandlerResult :=
  if !ValidateSignature sig body secret then
    { writes := [(401, "Invalid signature")], parsed := false, upsertCalls := [], kycCalls := [] }
  else
    match parse body with
    | none =>
        { writes := [(500, "Database error"), (200, "Webhook received")],
          parsed := true, upsertCalls := [], kycCalls := [] }
    | some _ =>
        { writes := [(200, "Webhook received")], parsed := true,
          upsertCalls := [], kycCalls := [] }

/-- Model of `OnramperManager.UpdateTransaction` (webhook.go): copy the
payload, require a user id (the local `userID` variable is declared and
never assigned, so it is always the empty string), require a non-empty
internal transaction id and status, then upsert through the database
client, modelled by the oracle `upsert`. The second component records the
`UpsertOnramperTransaction` invocations. -/
def UpdateTransaction (payload : WebhookPayload)
    (upsert : WebhookPayload → String → Except String String) :
    Except String String × List (WebhookPayload × String) :=
  let userID : String := ""
  let onrampTx : WebhookPayload :=
    { country := payload.country, inAmount := payload.inAmount, onramp := payload.onramp,
      onrampTransactionID := payload.onrampTransactionID, outAmount := payload.outAmount,
      paymentMethod := payload.paymentMethod, partnerContext := payload.partnerContext,
      sourceCurrency := payload.sourceCurrency, status := payload.status,
      statusDate := payload.statusDate, targetCurrency := payload.targetCurrency,
      transactionID := payload.transactionID, transactionType := payload.transactionType,
      transactionHash := payload.transactionHash, walletAddress := payload.walletAddress }
  if userID = "" then (.error "user ID is required", [])
  else if onrampTx.transactionID = "" then (.error "user ID is required", [])
  else if onrampTx.status = "" then (.error "transaction status is required", [])
  else
    match upsert onrampTx userID with
    | .error e => (.error ("failed to store transaction: " ++ e), [(onrampTx, userID)])
    | .ok uid => (.ok uid, [(onrampTx, userID)])

/-- Model of `OnramperManager.HandleKYCWebhook` (webhook.go): reject a nil
payload, trim the identifiers and status, require at least one of the
three identifiers, resolve the user through `getUserID` (the database
client's `GetUserIDFromTransaction`), map the status through the switch,
and update the verification state through `updateKYC` (the client's
`UpdateKYCStatus`). The second component records the `UpdateKYCStatus`
invocations. -/
def HandleKYCWebhook (payload : Option WebhookPayload)
    (getUserID : String → String → String → Except String String)
    (updateKYC : String → String → Except String String) :
    Except String String × List (String × String) :=
  match payload with
  | none => (.error "webhook payload cannot be nil", [])
  | some p =>
    let transactionID := goTrimSpace p.transactionID
    let onrampTxID := goTrimSpace p.onrampTransactionID
    let walletAddress := goTrimSpace p.walletAddress
    let rawStatus := goTrimSpace p.status
    if transactionID = "" ∧ onrampTxID = "" ∧ walletAddress = "" then
      (.error "transaction identifiers required", [])
    else
      match getUserID transactionID onrampTxID walletAddress with
      | .error e => (.error ("user resolution failed: " ++ e), [])
      | .ok userID =>
        match mapKYCStatus rawStatus with
        | .error e => (.error e, [])
        | .ok newStatus =>
          match updateKYC userID newStatus with
          | .error e => (.error ("kyc update failed: " ++ e), [(userID, newStatus)])
          | .ok resultStatus => (.ok resultStatus, [(userID, newStatus)])

/-- A verification store: one `(user_id, status)` row per user. -/
def lookupStatus (store : List (String × String)) (uid : String) : Option String :=
  (store.find? (fun r => r.1 == uid)).map (fun r => r.2)

/-- Semantics of the Hasura upsert issued by
`GraphQLClient.UpdateKYCStatus` (`pkg/database`), as its mutation string
specifies: insert one `(user_id, status)` row; on conflict on the
`user_id` unique key, update the `status` column only `where: {status:
{_neq: "APPROVED"}}`; return the affected row's status, or nothing when
the conditional update matched no row. -/
def upsertVerificationSession (store : List (String × String)) (uid newStatus : String) :
    List (String × String) × Option String :=
  match store.find? (fun r => r.1 == uid) with
  | none => (store ++ [(uid, newStatus)], some newStatus)
  | some r =>
    if r.2 ≠ "APPROVED" then
      (store.map (fun q => if q.1 == uid then (q.1, newStatus) else q), some newStatus)
    else (store, none)

/-- Model of `GraphQLClient.UpdateKYCStatus` (`pkg/database`): execute the
conditional upsert against the store; an empty (absent) status in the
response becomes the `empty status in response` error, otherwise the
returned status is the result. -/
def UpdateKYCStatus (store : List (String × String)) (uid newStatus : String) :
    List (String × String) × Except String String :=
  match upsertVerificationSession store uid newStatus with
  | (store2, none) => (store2, .error "empty status in response")
  | (store2, some st) => (store2, .ok st)

/-- A well-formed `completed` webhook payload for transaction `TX42`, as
the decoder would produce it from `body42`. -/
def payload42 : WebhookPayload :=
  { country := "us", inAmount := 100.0, onramp := "moonpay", onrampTransactionID := "OR-42",
    outAmount := 0.05, paymentMethod := "creditcard", partnerContext := "",
    sourceCurrency := "usd", status := "completed", statusDate := 0, targetCurrency := "eth",
    transactionID := "TX42", transactionType := "onramp", transactionHash := "",
    walletAddress := "0xabc" }

/-- The raw bytes of a well-formed JSON body carrying `status:
"completed"` and `transactionId: "TX42"` (`0x7b`/`0x7d` are the JSON
braces). -/
def body42 : List Nat :=
  [0x7b] ++ utf8Bytes "\"status\":\"completed\",\"transactionId\":\"TX42\"" ++ [0x7d]

/-- The raw bytes of a malformed body: a lone opening brace. -/
def bodyBad : List Nat := [0x7b]

/-- A payload with both transaction ids and a status present, which the
specified validation must accept. -/
def payloadBothIDs : WebhookPayload :=
  { country := "us", inAmount := 10.0, onramp := "transak", onrampTransactionID := "OR-1",
    outAmount := 0.01, paymentMethod := "creditcard", partnerContext := "",
    sourceCurrency := "usd", status := "pending", statusDate := 0, targetCurrency := "btc",
    transactionID := "TX1", transactionType := "onramp", transactionHash := "",
    walletAddress := "bc1q" }

/-- A payload whose status `shipped` is outside the KYC switch. -/
def payloadShipped : WebhookPayload :=
  { country := "us", inAmount := 10.0, onramp := "transak", onrampTransactionID := "OR-2",
    outAmount := 0.01, paymentMethod := "creditcard", partnerContext := "",
    sourceCurrency := "usd", status := "shipped", statusDate := 0, targetCurrency := "btc",
    transactionID := "TX2", transactionType := "onramp", transactionHash := "",
    walletAddress := "bc1q" }

/-- C9: with an empty configured webhook secret, ValidateSignature
rejects every body and every received signature — an empty secret never
yields a false valid. -/
theorem ValidateSignature_empty_secret (sig : String) (body : List Nat) :
    ValidateSignature sig body "" = false := by
  simp [ValidateSignature]

/-- C3: for every body and non-empty secret, ValidateSignature accepts
exactly the hex HMAC-SHA256 digest of the body under that secret: it
returns true on that digest, false on every other received signature,
and in particular false on the digest under a different secret whenever
that digest differs. -/
theorem ValidateSignature_spec (B : List Nat) (S : String) (hS : S ≠ "") :
    ValidateSignature (hexHmacSha256 S B) B S = true ∧
    (∀ sig : String, sig ≠ hexHmacSha256 S B → ValidateSignature sig B S = false) ∧
    (∀ T : String, hexHmacSha256 T B ≠ hexHmacSha256 S B →
      ValidateSignature (hexHmacSha256 T B) B S = false) := by
  refine ⟨?_, ?_, ?_⟩
  · simp [ValidateSignature, hS]
  · intro sig hsig
    simp [ValidateSignature, hS, hsig]
  · intro T hT
    simp [ValidateSignature, hS, hT]

/-- Witness for C3 at the empty body and the secret "whsec". -/
theorem ValidateSignature_spec_witness :
    ("whsec" : String) ≠ "" ∧
    (ValidateSignature (hexHmacSha256 "whsec" []) [] "whsec" = true ∧
     (∀ sig : String, sig ≠ hexHmacSha256 "whsec" [] → ValidateSignature sig [] "whsec" = false) ∧
     (∀ T : String, hexHmacSha256 T [] ≠ hexHmacSha256 "whsec" [] →
       ValidateSignature (hexHmacSha256 T []) [] "whsec" = false)) :=
  ⟨by decide, ValidateSignature_spec [] "whsec" (by decide)⟩

/-- C4: when the signature does not verify, the webhook handler writes
exactly the 401 response, never parses the body, and performs no ledger
or verification store operation. -/
theorem WebhookHandler_invalid_signature (sig : String) (body : List Nat) (secret : String)
    (parse : List Nat → Option WebhookPayload)
    (h : ValidateSignature sig body secret = false) :
    WebhookHandler sig body secret parse =
      { writes := [(401, "Invalid signature")], parsed := false,
        upsertCalls := [], kycCalls := [] } := by
  simp [WebhookHandler, h]

/-- Witness for C4: an arbitrary signature with an empty secret fails
verification and draws the 401 path. -/
theorem WebhookHandler_invalid_signature_witness :
    ValidateSignature "deadbeef" [] "" = false ∧
    WebhookHandler "deadbeef" [] "" (fun _ => none) =
      { writes := [(401, "Invalid signature")], parsed := false,
        upsertCalls := [], kycCalls := [] } :=
  ⟨by decide, WebhookHandler_invalid_signature "deadbeef" [] "" (fun _ => none) (by decide)⟩

/-- C1: on a correctly signed, well-formed completed webhook for TX42 the
handler responds 200 but performs no ledger upsert and no verification
update — the Go handler never invokes UpdateTransaction or
HandleKYCWebhook, contradicting the specified end-to-end behavior. -/
theorem WebhookHandler_completed_no_store_writes :
    WebhookHandler (hexHmacSha256 "whsec" body42) body42 "whsec" (fun _ => some payload42) =
      { writes := [(200, "Webhook received")], parsed := true,
        upsertCalls := [], kycCalls := [] } := by
  have hv : ValidateSignature (hexHmacSha256 "whsec" body42) body42 "whsec" = true := by
    simp [ValidateSignature]
  simp [WebhookHandler, hv]

/-- C5: on a correctly signed but malformed body the handler writes the
500 Database-error response and then, missing a return, also writes the
200 response — the effective status is 500, not the specified 400. -/
theorem WebhookHandler_malformed_payload_responds_500 :
    WebhookHandler (hexHmacSha256 "whsec" bodyBad) bodyBad "whsec" (fun _ => none) =
      { writes := [(500, "Database error"), (200, "Webhook received")], parsed := true,
        upsertCalls := [], kycCalls := [] } := by
  have hv : ValidateSignature (hexHmacSha256 "whsec" bodyBad) bodyBad "whsec" = true := by
    simp [ValidateSignature]
  simp [WebhookHandler, hv]

/-- C10: UpdateTransaction fails with the user-ID error on every payload
and never invokes the ledger upsert, whatever the database client would
answer — its local user-identity variable is always empty. -/
theorem UpdateTransaction_always_errors (payload : WebhookPayload)
    (upsert : WebhookPayload → String → Except String String) :
    UpdateTransaction payload upsert = (.error "user ID is required", []) := rfl

/-- C6: a payload carrying both transaction ids and a non-empty status,
which the specified validation must accept, is still rejected by
UpdateTransaction — the unassigned user-ID variable fails first. -/
theorem UpdateTransaction_rejects_payload_with_both_ids :
    UpdateTransaction payloadBothIDs (fun _ _ => .ok "user123") =
      (.error "user ID is required", []) := rfl

/-- C8: MapTransactionStatus is total — every input string maps to one of
the five canonical transaction states, never an error — and any input
matching none of the recognized patterns maps to the fallback "new". -/
theorem MapTransactionStatus_total (s : String) :
    (MapTransactionStatus s = "pending" ∨ MapTransactionStatus s = "completed" ∨
     MapTransactionStatus s = "paid" ∨ MapTransactionStatus s = "failed" ∨
     MapTransactionStatus s = "new") ∧
    ((goContains (goToLower s) "pending" = false ∧ goContains (goToLower s) "in_progress" = false ∧
      goContains (goToLower s) "processing" = false ∧ goContains (goToLower s) "completed" = false ∧
      goContains (goToLower s) "confirmed" = false ∧ goToLower s ≠ "paid" ∧
      goContains (goToLower s) "failed" = false ∧ goContains (goToLower s) "error" = false) →
      MapTransactionStatus s = "new") := by
  constructor
  · simp only [MapTransactionStatus]
    split
    · exact Or.inl rfl
    · split
      · exact Or.inr (Or.inl rfl)
      · split
        · exact Or.inr (Or.inr (Or.inl rfl))
        · split
          · exact Or.inr (Or.inr (Or.inr (Or.inl rfl)))
          · exact Or.inr (Or.inr (Or.inr (Or.inr rfl)))
  · intro h
    obtain ⟨h1, h2, h3, h4, h5, h6, h7, h8⟩ := h
    simp only [MapTransactionStatus]
    simp [h1, h2, h3, h4, h5, h6, h7, h8]

/-- Witness for C8 at the unrecognized input "zzz". -/
theorem MapTransactionStatus_total_witness :
    (goContains (goToLower "zzz") "pending" = false ∧ goContains (goToLower "zzz") "in_progress" = false ∧
     goContains (goToLower "zzz") "processing" = false ∧ goContains (goToLower "zzz") "completed" = false ∧
     goContains (goToLower "zzz") "confirmed" = false ∧ goToLower "zzz" ≠ "paid" ∧
     goContains (goToLower "zzz") "failed" = false ∧ goContains (goToLower "zzz") "error" = false) ∧
    MapTransactionStatus "zzz" = "new" :=
  ⟨by decide, (MapTransactionStatus_total "zzz").2 (by decide)⟩

/-- C7: the KYC derivation is case-insensitive and exact — APPROVED
exactly on "completed", REJECTED exactly on "failed" or "canceled",
PENDING exactly on "pending", all up to ASCII case; every other status
fails with the invalid-status error, and on a failed mapping
HandleKYCWebhook performs no verification store write. -/
theorem mapKYCStatus_spec (s : String) :
    (mapKYCStatus s = .ok "APPROVED" ↔ goToLower s = "completed") ∧
    (mapKYCStatus s = .ok "REJECTED" ↔ (goToLower s = "failed" ∨ goToLower s = "canceled")) ∧
    (mapKYCStatus s = .ok "PENDING" ↔ goToLower s = "pending") ∧
    ((mapKYCStatus s).isOk = false ↔
      ¬(goToLower s = "completed" ∨ goToLower s = "failed" ∨ goToLower s = "canceled" ∨
        goToLower s = "pending")) ∧
    (∀ e : String, mapKYCStatus s = .error e → e = "invalid status: " ++ s) ∧
    (∀ (p : WebhookPayload) (g : String → String → String → Except String String)
       (u : String → String → Except String String) (e : String),
       mapKYCStatus (goTrimSpace p.status) = .error e →
       (HandleKYCWebhook (some p) g u).2 = []) := by
  refine ⟨?_, ?_, ?_, ?_, ?_, ?_⟩
  case _ | _ | _ | _ | _ =>
    unfold mapKYCStatus
    by_cases h1 : goToLower s = "completed" <;>
      by_cases h2 : goToLower s = "failed" ∨ goToLower s = "canceled" <;>
        by_cases h3 : goToLower s = "pending" <;>
          simp_all [Except.isOk, Except.toBool]
  case _ =>
    intro p g u e he
    unfold HandleKYCWebhook
    by_cases hid : (goTrimSpace p.transactionID = "" ∧ goTrimSpace p.onrampTransactionID = "" ∧
        goTrimSpace p.walletAddress = "")
    · simp [hid]
    · simp only [hid, if_false]
      cases hg : g (goTrimSpace p.transactionID) (goTrimSpace p.onrampTransactionID)
          (goTrimSpace p.walletAddress) with
      | error e2 => simp [hg]
      | ok uid => simp [hg, he]

/-- Witness for C7 at the unsupported status "shipped". -/
theorem mapKYCStatus_spec_witness :
    mapKYCStatus (goTrimSpace payloadShipped.status) = .error "invalid status: shipped" ∧
    (HandleKYCWebhook (some payloadShipped) (fun _ _ _ => .ok "u1")
      (fun _ _ => .ok "APPROVED")).2 = [] :=
  ⟨rfl, (mapKYCStatus_spec "shipped").2.2.2.2.2 payloadShipped (fun _ _ _ => .ok "u1")
    (fun _ _ => .ok "APPROVED") "invalid status: shipped" rfl⟩

/-- C2: the verification-state ratchet — when the stored state for a user
is APPROVED, a call of UpdateKYCStatus with new state PENDING or REJECTED
leaves the store unchanged and the stored state APPROVED, because the
conditional upsert updates only where the stored status is not
APPROVED. -/
theorem UpdateKYCStatus_ratchet (store : List (String × String)) (uid ns : String)
    (hA : lookupStatus store uid = some "APPROVED")
    (_hns : ns = "PENDING" ∨ ns = "REJECTED") :
    (UpdateKYCStatus store uid ns).1 = store ∧
    lookupStatus (UpdateKYCStatus store uid ns).1 uid = some "APPROVED" := by
  have hfind : ∃ r, store.find? (fun q => q.1 == uid) = some r ∧ r.2 = "APPROVED" := by
    unfold lookupStatus at hA
    cases h : store.find? (fun q => q.1 == uid) with
    | none => rw [h] at hA; simp at hA
    | some r => rw [h] at hA; simp at hA; exact ⟨r, rfl, hA⟩
  obtain ⟨r, hf, hr⟩ := hfind
  have hstep : UpdateKYCStatus store uid ns = (store, .error "empty status in response") := by
    unfold UpdateKYCStatus upsertVerificationSession
    rw [hf]
    simp [hr]
  rw [hstep]
  exact ⟨rfl, hA⟩

/-- Witness for C2 at a one-row store whose user is APPROVED. -/
theorem UpdateKYCStatus_ratchet_witness :
    lookupStatus [("u1", "APPROVED")] "u1" = some "APPROVED" ∧
    ((UpdateKYCStatus [("u1", "APPROVED")] "u1" "PENDING").1 = [("u1", "APPROVED")] ∧
     lookupStatus (UpdateKYCStatus [("u1", "APPROVED")] "u1" "PENDING").1 "u1" =
       some "APPROVED") :=
  ⟨by decide,
   UpdateKYCStatus_ratchet [("u1", "APPROVED")] "u1" "PENDING" (by decide) (Or.inl rfl)⟩
